import Mathlib

/-!
Shallow embedding of `src/pycos/pycos.py`, a thin wrapper over an
S3-compatible object store, together with proofs about its behaviour.

The external object-storage capability (`self.cos`, an ibm_boto3 client) is
modelled as a function/record parameter; dictionary responses whose keys may
be absent are modelled with `Option` fields, and a lookup of an absent key
raises the Python `KeyError`, modelled by `CosError.keyError`.
-/

namespace Pycos

/-- An object-listing entry, as the dicts inside `response["Contents"]`.
Only its identity matters for the enumeration logic, so it is kept opaque
as a string key. -/
abbrev Entry := String

/-- Errors that can surface from the capability layer or the Python runtime:
`clientError` models `ibm_botocore.client.ClientError` raised by the backend,
`keyError` models a Python `KeyError` from a missing dict key,
`osError` models OS-level failures (e.g. from `close` or `os.remove`). -/
inductive CosError where
  | clientError (msg : String)
  | keyError (key : String)
  | osError (msg : String)
deriving DecidableEq, Repr

/-- The dict returned by `self.cos.list_objects_v2(...)`.  Each field models
one key of the response dict; `none` means the key is absent (for example,
S3 omits `Contents` for an empty bucket). -/
structure ListObjectsResponse where
  contents : Option (List Entry)
  isTruncated : Option Bool
  nextContinuationToken : Option String
deriving DecidableEq, Repr

/-- The backend capability used by `bucket_contents`:
`svc name maxKeys token` models
`self.cos.list_objects_v2(Bucket=name, MaxKeys=max_keys, ContinuationToken=token)`,
which either returns a response dict or raises. -/
abbrev ListObjectsV2 := String → Nat → String → Except CosError ListObjectsResponse

/-- The `while more_results` loop body of `COSAdmin.bucket_contents`
(pycos.py lines 102-121), with `fuel` bounding the number of iterations:
`none` means the loop had not finished within `fuel` iterations,
`some r` is the outcome (the accumulated `files` list, or the exception
propagating out of the loop). -/
def bucketContentsAux (svc : ListObjectsV2) (name : String) (maxKeys : Nat) :
    Nat → String → List Entry → Option (Except CosError (List Entry))
  | 0, _, _ => none
  | fuel+1, token, files =>
    match svc name maxKeys token with
    | .error e => some (.error e)
    | .ok response =>
      match response.contents with
      | none => some (.error (.keyError "Contents"))
      | some batch =>
        match response.isTruncated with
        | none => some (.error (.keyError "IsTruncated"))
        | some true =>
          match response.nextContinuationToken with
          | none => some (.error (.keyError "NextContinuationToken"))
          | some t => bucketContentsAux svc name maxKeys fuel t (files ++ batch)
        | some false => some (.ok (files ++ batch))

/-- `COSAdmin.bucket_contents(name, max_keys)`: starts the pagination loop
with `next_token = ""` and `files = []`. -/
def bucket_contents (svc : ListObjectsV2) (name : String) (maxKeys : Nat)
    (fuel : Nat) : Option (Except CosError (List Entry)) :=
  bucketContentsAux svc name maxKeys fuel "" []

/-- The batches (`response["Contents"]`) of the pages the loop visits and
parses, in delivery order — ghost instrumentation following exactly the
control flow of `bucketContentsAux`. -/
def deliveredBatches (svc : ListObjectsV2) (name : String) (maxKeys : Nat) :
    Nat → String → List (List Entry)
  | 0, _ => []
  | fuel+1, token =>
    match svc name maxKeys token with
    | .error _ => []
    | .ok response =>
      match response.contents with
      | none => []
      | some batch =>
        match response.isTruncated with
        | none => [batch]
        | some true =>
          match response.nextContinuationToken with
          | none => [batch]
          | some t => batch :: deliveredBatches svc name maxKeys fuel t
        | some false => [batch]

/-- Number of `list_objects_v2` requests the loop issues — ghost
instrumentation following exactly the control flow of `bucketContentsAux`. -/
def numCalls (svc : ListObjectsV2) (name : String) (maxKeys : Nat) :
    Nat → String → Nat
  | 0, _ => 0
  | fuel+1, token =>
    match svc name maxKeys token with
    | .error _ => 1
    | .ok response =>
      match response.contents with
      | none => 1
      | some _ =>
        match response.isTruncated with
        | none => 1
        | some true =>
          match response.nextContinuationToken with
          | none => 1
          | some t => 1 + numCalls svc name maxKeys fuel t
        | some false => 1

/-- The continuation token the `bucket_contents` loop will use after
querying `token`, or `none` when that query ends the loop: the request
raised, a key was missing from the response, or `IsTruncated` was `false`
— ghost characterisation of one loop step. -/
def continues (svc : ListObjectsV2) (name : String) (maxKeys : Nat)
    (token : String) : Option String :=
  match svc name maxKeys token with
  | .error _ => none
  | .ok response =>
    match response.contents with
    | none => none
    | some _ =>
      match response.isTruncated with
      | some true => response.nextContinuationToken
      | _ => none

/-- The backend interaction starting at `token` comes to a stop within
`fuel` queries: some query along the continuation chain raises, lacks a
key, or reports `IsTruncated = false`. -/
def stopsWithin (svc : ListObjectsV2) (name : String) (maxKeys : Nat) :
    Nat → String → Bool
  | 0, _ => false
  | fuel+1, token =>
    match continues svc name maxKeys token with
    | none => true
    | some t => stopsWithin svc name maxKeys fuel t

/-- A bucket descriptor as returned inside `rsp['Buckets']` by
`list_buckets_extended` (name plus service-provided creation metadata). -/
structure BucketDescriptor where
  name : String
  creationDate : String
deriving DecidableEq, Repr

/-- The dict returned by `self.cos.list_buckets_extended()`; the `Buckets`
key may be absent (`none`). -/
structure ListBucketsResponse where
  buckets : Option (List BucketDescriptor)
deriving DecidableEq, Repr

/-- `COSAdmin.bucket_list` (pycos.py lines 87-96), as a function of the
backend response: `if 'Buckets' in rsp.keys(): return rsp['Buckets']`,
otherwise `return []`. -/
def bucket_list (rsp : ListBucketsResponse) : List BucketDescriptor :=
  match rsp.buckets with
  | some bs => bs
  | none => []

/-- A parsed JSON value, as produced by `requests.get(...).json()`.  Only
objects and strings are reachable by the code under study; other shapes are
collapsed into `other`. -/
inductive Json where
  | str (s : String)
  | obj (fields : List (String × Json))
  | other

/-- Python subscript `j[k]` on a parsed JSON value: a `KeyError` when the key
is absent, and a runtime error when `j` is not a dict. -/
def Json.get (j : Json) (k : String) : Except CosError Json :=
  match j with
  | .obj fields =>
    match fields.lookup k with
    | some v => .ok v
    | none => .error (.keyError k)
  | _ => .error (.osError "TypeError")

/-- Python `str.lower()`, character by character. -/
def pyLower (s : String) : String := String.mk (s.data.map Char.toLower)

/-- `COS.url_from_location(config, location, url_type)` (pycos.py lines
60-74).  `httpGetJson` models `requests.get(config['endpoints']).json()`.
The result pairs the returned value (`none` models Python `None`) with the
number of HTTP requests performed. -/
def url_from_location (httpGetJson : String → Except CosError Json)
    (endpoints location urlType : String) :
    Except CosError (Option String) × Nat :=
  if pyLower urlType ∉ (["public", "private", "direct"] : List String) then
    (.ok none, 0)
  else
    match httpGetJson endpoints with
    | .error e => (.error e, 1)
    | .ok jsn =>
      match (do
          let a ← jsn.get "service-endpoints"
          let b ← a.get "regional"
          let c ← b.get location
          let d ← c.get urlType
          let e ← d.get location
          match e with
          | .str u => Except.ok ("https://" ++ u)
          | _ => Except.error (CosError.osError "TypeError") :
          Except CosError String) with
      | .error e => (.error e, 1)
      | .ok u => (.ok (some u), 1)

/-- A local path produced by `os.path.flatten(tempfile.mkdtemp(), key)`:
the pair of the temp directory (identified by the fresh id `mkdtemp`
produced) and the filename (the object key). -/
abbrev TmpPath := Nat × String

/-- The local filesystem and OS state visible to `COSReader`:
which temp directories and files exist, which file handles are open (with
the path they read), and the fresh-name sources for `tempfile.mkdtemp` and
`open`. -/
structure LocalFS where
  dirs : List Nat
  files : List TmpPath
  openHandles : List (Nat × TmpPath)
  nextDir : Nat
  nextHandle : Nat
deriving DecidableEq, Repr

/-- `tempfile.mkdtemp()`: creates a new, uniquely named directory on the
local filesystem and returns its name.  Freshness of the OS-chosen name is
modelled by the `nextDir` counter. -/
def mkdtemp (fs : LocalFS) : Nat × LocalFS :=
  (fs.nextDir,
   { fs with dirs := fs.nextDir :: fs.dirs, nextDir := fs.nextDir + 1 })

/-- The `COSReader` instance state: the fields set by `__init__` and
updated by `__enter__` (`self.bucket`, `self.key`, `self.open_file`,
`self.tmp`).  `open_file` holds the handle id once the reader is open. -/
structure COSReader where
  bucket : String
  key : String
  open_file : Option Nat
  tmp : TmpPath
deriving DecidableEq, Repr

/-- `COSReader.__init__(config, bucket, key)` (pycos.py lines 150-156):
stores bucket and key, sets `open_file = None`, and computes
`self.tmp = os.path.flatten(tempfile.mkdtemp(), key)`.  The superclass
constructor only builds the capability handle (no filesystem or network
effect), so it does not appear in the state transition. -/
def COSReader.init (fs : LocalFS) (bucket key : String) :
    COSReader × LocalFS :=
  let p := mkdtemp fs
  ({ bucket := bucket, key := key, open_file := none, tmp := (p.1, key) },
   p.2)

/-- The remote object store consumed by `download_file`: the objects that
exist, as `((bucket, key), body)` pairs. -/
structure ObjectStore where
  objects : List ((String × String) × String)
deriving DecidableEq, Repr

/-- Body of object `(bucket, key)` if it exists. -/
def ObjectStore.lookup (s : ObjectStore) (bucket key : String) :
    Option String :=
  s.objects.lookup (bucket, key)

/-- `self.cos.download_file(bucket, key, tmp)`: on success the remote body
is written to the local path `tmp`; a missing object raises the capability's
`ClientError` (HTTP 404), leaving the filesystem unchanged. -/
def download_file (store : ObjectStore) (bucket key : String)
    (tmp : TmpPath) (fs : LocalFS) : Except CosError Unit × LocalFS :=
  match store.lookup bucket key with
  | none => (.error (.clientError "404 Not Found"), fs)
  | some _ => (.ok (), { fs with files := tmp :: fs.files })

/-- Python `open(tmp)` on a path that exists (it is only called right after
a successful download): allocates a fresh handle reading that path. -/
def openLocal (fs : LocalFS) (p : TmpPath) : Nat × LocalFS :=
  (fs.nextHandle,
   { fs with openHandles := (fs.nextHandle, p) :: fs.openHandles,
             nextHandle := fs.nextHandle + 1 })

/-- `file.close()` as CPython performs it on a readable file: releases the
handle and succeeds. -/
def closeFile (fs : LocalFS) (h : Nat) : Except CosError Unit × LocalFS :=
  (.ok (), { fs with openHandles := fs.openHandles.filter (fun e => e.1 != h) })

/-- `os.remove(tmp)`: deletes the file, or raises `FileNotFoundError` if the
path does not exist. -/
def removeFile (fs : LocalFS) (p : TmpPath) : Except CosError Unit × LocalFS :=
  if p ∈ fs.files then
    (.ok (), { fs with files := fs.files.filter (fun q => q != p) })
  else
    (.error (.osError "FileNotFoundError"), fs)

/-- `COSReader.__enter__` (pycos.py lines 140-144): download the object to
`self.tmp`, then `self.open_file = open(self.tmp)` and return the handle.
An exception from `download_file` propagates as raised, with no cleanup. -/
def COSReader.enter (store : ObjectStore) (r : COSReader) (fs : LocalFS) :
    Except CosError (COSReader × Nat) × LocalFS :=
  match download_file store r.bucket r.key r.tmp fs with
  | (.error e, fs1) => (.error e, fs1)
  | (.ok _, fs1) =>
    let q := openLocal fs1 r.tmp
    (.ok ({ r with open_file := some q.1 }, q.1), q.2)

/-- `COSReader.__exit__` (pycos.py lines 146-148): `self.open_file.close()`
then `os.remove(self.tmp)`.  The close operation is taken as a parameter so
that a failing `close` can be studied; Python sequencing means an exception
from `close` propagates at once and the `os.remove` statement never runs. -/
def COSReader.exitWith
    (closeOp : LocalFS → Nat → Except CosError Unit × LocalFS)
    (r : COSReader) (fs : LocalFS) : Except CosError Unit × LocalFS :=
  match r.open_file with
  | none => (.error (.osError "AttributeError"), fs)
  | some h =>
    match closeOp fs h with
    | (.error e, fs1) => (.error e, fs1)
    | (.ok _, fs1) => removeFile fs1 r.tmp

/-- `COSReader.__exit__` with the standard CPython `close`. -/
def COSReader.exit (r : COSReader) (fs : LocalFS) :
    Except CosError Unit × LocalFS :=
  COSReader.exitWith closeFile r fs

/-- A `with COSReader(...) as f: body(f)` block around an already
constructed reader: `__enter__`; if it raises, the exception propagates and
the body never runs; otherwise the body runs on the yielded handle and
`__exit__` runs on every exit path.  An exception raised by `__exit__`
itself replaces the body's outcome; otherwise the body's outcome (its
return or its exception) propagates. -/
def withReader (store : ObjectStore) (r : COSReader) (fs : LocalFS)
    (body : Nat → Except CosError Unit) : Except CosError Unit × LocalFS :=
  match COSReader.enter store r fs with
  | (.error e, fs1) => (.error e, fs1)
  | (.ok rh, fs1) =>
    let bodyResult := body rh.2
    match COSReader.exit rh.1 fs1 with
    | (.error e2, fs2) => (.error e2, fs2)
    | (.ok _, fs2) => (bodyResult, fs2)

/-- Test fixture: a `close` that raises an `OSError`, used to study
`COSReader.__exit__` when closing the handle itself fails. -/
def failingClose (msg : String) (fs : LocalFS) (_h : Nat) :
    Except CosError Unit × LocalFS :=
  (.error (.osError msg), fs)

/- ------------------------------------------------------------------ -/
/- Helper lemmas                                                       -/
/- ------------------------------------------------------------------ -/

/-- When the pagination loop finishes with `files`, those are the starting
accumulator followed by the delivered batches, concatenated in delivery
order. -/
theorem bucketContentsAux_ok_append (svc : ListObjectsV2) (name : String)
    (maxKeys : Nat) :
    ∀ (fuel : Nat) (token : String) (acc files : List Entry),
      bucketContentsAux svc name maxKeys fuel token acc
        = some (Except.ok files) →
      files = acc ++ (deliveredBatches svc name maxKeys fuel token).flatten := by
  intro fuel
  induction fuel with
  | zero =>
    intro token acc files h
    simp [bucketContentsAux] at h
  | succ n ih =>
    intro token acc files h
    simp only [bucketContentsAux, deliveredBatches] at h ⊢
    cases hsvc : svc name maxKeys token with
    | error e => simp [hsvc] at h
    | ok response =>
      simp only [hsvc] at h ⊢
      cases hc : response.contents with
      | none => simp [hc] at h
      | some batch =>
        simp only [hc] at h ⊢
        cases ht : response.isTruncated with
        | none => simp [ht] at h
        | some b =>
          cases b with
          | false =>
            simp only [ht] at h ⊢
            simp only [Option.some.injEq, Except.ok.injEq] at h
            simp [← h]
          | true =>
            simp only [ht] at h ⊢
            cases hn : response.nextContinuationToken with
            | none => simp [hn] at h
            | some t =>
              simp only [hn] at h ⊢
              have hrec := ih t (acc ++ batch) files h
              simp [hrec]

/-- Once the loop finishes within some fuel bound, any larger bound gives
the same outcome: the fuel is a proof device, not part of the semantics. -/
theorem bucketContentsAux_mono (svc : ListObjectsV2) (name : String)
    (maxKeys : Nat) :
    ∀ (fuel fuel2 : Nat) (token : String) (acc : List Entry)
      (r : Except CosError (List Entry)),
      fuel ≤ fuel2 →
      bucketContentsAux svc name maxKeys fuel token acc = some r →
      bucketContentsAux svc name maxKeys fuel2 token acc = some r := by
  intro fuel
  induction fuel with
  | zero =>
    intro fuel2 token acc r _ h
    simp [bucketContentsAux] at h
  | succ n ih =>
    intro fuel2 token acc r hle h
    obtain ⟨m, rfl⟩ : ∃ m, fuel2 = m + 1 := ⟨fuel2 - 1, by omega⟩
    simp only [bucketContentsAux] at h ⊢
    cases hsvc : svc name maxKeys token with
    | error e => simpa [hsvc] using h
    | ok response =>
      simp only [hsvc] at h ⊢
      cases hc : response.contents with
      | none => simpa [hc] using h
      | some batch =>
        simp only [hc] at h ⊢
        cases ht : response.isTruncated with
        | none => simpa [ht] using h
        | some b =>
          cases b with
          | false => simpa [ht] using h
          | true =>
            simp only [ht] at h ⊢
            cases hn : response.nextContinuationToken with
            | none => simpa [hn] using h
            | some t =>
              simp only [hn] at h ⊢
              exact ih m t (acc ++ batch) r (by omega) h

/-- If the backend interaction stops within the fuel bound, the loop
reaches an outcome (it does not exhaust the fuel). -/
theorem stopsWithin_isSome (svc : ListObjectsV2) (name : String)
    (maxKeys : Nat) :
    ∀ (fuel : Nat) (token : String) (acc : List Entry),
      stopsWithin svc name maxKeys fuel token = true →
      (bucketContentsAux svc name maxKeys fuel token acc).isSome := by
  intro fuel
  induction fuel with
  | zero =>
    intro token acc h
    simp [stopsWithin] at h
  | succ n ih =>
    intro token acc h
    simp only [stopsWithin, continues] at h
    simp only [bucketContentsAux]
    cases hsvc : svc name maxKeys token with
    | error e => simp
    | ok response =>
      simp only [hsvc] at h ⊢
      cases hc : response.contents with
      | none => simp
      | some batch =>
        simp only [hc] at h ⊢
        cases ht : response.isTruncated with
        | none => simp [ht] at h ⊢
        | some b =>
          cases b with
          | false => simp [ht]
          | true =>
            simp only [ht] at h ⊢
            cases hn : response.nextContinuationToken with
            | none => simp
            | some t =>
              simp only [hn] at h ⊢
              exact ih t (acc ++ batch) h

/-- On a successful outcome the loop has issued exactly one
`list_objects_v2` request per delivered page: no page is ever re-requested
and no retry happens. -/
theorem numCalls_eq_batches (svc : ListObjectsV2) (name : String)
    (maxKeys : Nat) :
    ∀ (fuel : Nat) (token : String) (acc files : List Entry),
      bucketContentsAux svc name maxKeys fuel token acc
        = some (Except.ok files) →
      numCalls svc name maxKeys fuel token
        = (deliveredBatches svc name maxKeys fuel token).length := by
  intro fuel
  induction fuel with
  | zero =>
    intro token acc files h
    simp [bucketContentsAux] at h
  | succ n ih =>
    intro token acc files h
    simp only [bucketContentsAux] at h
    simp only [numCalls, deliveredBatches]
    cases hsvc : svc name maxKeys token with
    | error e => simp [hsvc] at h
    | ok response =>
      simp only [hsvc] at h ⊢
      cases hc : response.contents with
      | none => simp [hc] at h
      | some batch =>
        simp only [hc] at h ⊢
        cases ht : response.isTruncated with
        | none => simp [ht] at h
        | some b =>
          cases b with
          | false => simp [ht]
          | true =>
            simp only [ht] at h ⊢
            cases hn : response.nextContinuationToken with
            | none => simp [hn] at h
            | some t =>
              simp only [hn] at h ⊢
              have hrec := ih t (acc ++ batch) files h
              simp [hrec]
              omega

/- ------------------------------------------------------------------ -/
/- Backend fixtures for witnesses                                      -/
/- ------------------------------------------------------------------ -/

/-- Backend fixture: a single page `["a", "b", "c"]` with
`IsTruncated = false`, whatever the token. -/
def svcOnePage : ListObjectsV2 := fun _ _ _ =>
  .ok ⟨some ["a", "b", "c"], some false, none⟩

/-- Backend fixture: two pages, `["a", "b"]` (truncated, next token
`"tok1"`) then `["c"]` (final). -/
def svcTwoPages : ListObjectsV2 := fun _ _ t =>
  if t = "" then .ok ⟨some ["a", "b"], some true, some "tok1"⟩
  else .ok ⟨some ["c"], some false, none⟩

/-- Backend fixture: a response with no `Contents` key, as S3 returns for
an empty bucket. -/
def svcNoContents : ListObjectsV2 := fun _ _ _ =>
  .ok ⟨none, some false, none⟩

/- ------------------------------------------------------------------ -/
/- Claim theorems                                                      -/
/- ------------------------------------------------------------------ -/

/-- C1: for every bucket name and every `max_keys`, when `bucket_contents`
returns, its result is exactly the concatenation of the batches of the
pages the backend delivered, in delivery order and without re-sorting, so
its length is the sum of the page sizes. -/
theorem bucket_contents_concat (svc : ListObjectsV2) (name : String)
    (maxKeys fuel : Nat) (files : List Entry)
    (h : bucket_contents svc name maxKeys fuel = some (Except.ok files)) :
    files = (deliveredBatches svc name maxKeys fuel "").flatten ∧
    files.length
      = ((deliveredBatches svc name maxKeys fuel "").map List.length).sum := by
  have h1 := bucketContentsAux_ok_append svc name maxKeys fuel "" [] files h
  simp only [List.nil_append] at h1
  refine ⟨h1, ?_⟩
  simp [h1, List.length_flatten]

theorem bucket_contents_concat_witness :
    (["a", "b", "c"] : List Entry)
        = (deliveredBatches svcTwoPages "demo" 2 5 "").flatten ∧
    (["a", "b", "c"] : List Entry).length
      = ((deliveredBatches svcTwoPages "demo" 2 5 "").map List.length).sum :=
  bucket_contents_concat svcTwoPages "demo" 2 5 ["a", "b", "c"] rfl

/-- C7: whenever the backend interaction eventually stops (the service
returns `IsTruncated = false`, a request raises and the failure
propagates, or a response lacks a key), `bucket_contents` terminates:
within that much fuel it reaches a definite outcome, the outcome is stable
under any larger fuel bound, a failure of the very first page request
propagates to the caller, and on success the loop made exactly one request
per delivered page (no retries). -/
theorem bucket_contents_terminates (svc : ListObjectsV2) (name : String)
    (maxKeys fuel : Nat)
    (h : stopsWithin svc name maxKeys fuel "" = true) :
    (∃ r, bucket_contents svc name maxKeys fuel = some r ∧
        ∀ m, fuel ≤ m → bucket_contents svc name maxKeys m = some r) ∧
    (∀ e, svc name maxKeys "" = Except.error e →
        bucket_contents svc name maxKeys fuel = some (Except.error e)) ∧
    (∀ files,
        bucket_contents svc name maxKeys fuel = some (Except.ok files) →
        numCalls svc name maxKeys fuel ""
          = (deliveredBatches svc name maxKeys fuel "").length) := by
  refine ⟨?_, ?_, ?_⟩
  · have hs := stopsWithin_isSome svc name maxKeys fuel "" [] h
    obtain ⟨r, hr⟩ := Option.isSome_iff_exists.mp hs
    exact ⟨r, hr,
      fun m hm => bucketContentsAux_mono svc name maxKeys fuel m "" [] r hm hr⟩
  · intro e he
    obtain ⟨k, rfl⟩ : ∃ k, fuel = k + 1 := by
      cases fuel with
      | zero => simp [stopsWithin] at h
      | succ k => exact ⟨k, rfl⟩
    simp [bucket_contents, bucketContentsAux, he]
  · intro files hfiles
    exact numCalls_eq_batches svc name maxKeys fuel "" [] files hfiles

theorem bucket_contents_terminates_witness :
    (∃ r, bucket_contents svcOnePage "demo" 100 1 = some r ∧
        ∀ m, 1 ≤ m → bucket_contents svcOnePage "demo" 100 m = some r) ∧
    (∀ e, svcOnePage "demo" 100 "" = Except.error e →
        bucket_contents svcOnePage "demo" 100 1 = some (Except.error e)) ∧
    (∀ files,
        bucket_contents svcOnePage "demo" 100 1 = some (Except.ok files) →
        numCalls svcOnePage "demo" 100 1 ""
          = (deliveredBatches svcOnePage "demo" 100 1 "").length) :=
  bucket_contents_terminates svcOnePage "demo" 100 1 rfl

/-- C8: if the backend reports `IsTruncated = false` on the first page,
`bucket_contents` returns that single page's entries in order and makes
exactly one page request. -/
theorem bucket_contents_single_page (svc : ListObjectsV2) (name : String)
    (maxKeys : Nat) (response : ListObjectsResponse) (entries : List Entry)
    (fuel : Nat)
    (hsvc : svc name maxKeys "" = Except.ok response)
    (hc : response.contents = some entries)
    (ht : response.isTruncated = some false)
    (hfuel : 1 ≤ fuel) :
    bucket_contents svc name maxKeys fuel = some (Except.ok entries) ∧
    numCalls svc name maxKeys fuel "" = 1 := by
  obtain ⟨k, rfl⟩ : ∃ k, fuel = k + 1 := ⟨fuel - 1, by omega⟩
  constructor
  · simp [bucket_contents, bucketContentsAux, hsvc, hc, ht]
  · simp [numCalls, hsvc, hc, ht]

theorem bucket_contents_single_page_witness :
    bucket_contents svcOnePage "demo" 100 3
        = some (Except.ok ["a", "b", "c"]) ∧
    numCalls svcOnePage "demo" 100 3 "" = 1 :=
  bucket_contents_single_page svcOnePage "demo" 100
    ⟨some ["a", "b", "c"], some false, none⟩ ["a", "b", "c"] 3
    rfl rfl rfl (by omega)

/-- C10: the tolerant-read policy does not extend to `bucket_contents`:
whenever a page response lacks the `Contents` key (as the backend returns
for an empty bucket), the loop raises `KeyError('Contents')` — it neither
treats the page as empty nor returns the entries accumulated so far. -/
theorem bucket_contents_contents_keyerror (svc : ListObjectsV2)
    (name : String) (maxKeys fuel : Nat) (token : String) (acc : List Entry)
    (response : ListObjectsResponse)
    (hsvc : svc name maxKeys token = Except.ok response)
    (hc : response.contents = none) :
    bucketContentsAux svc name maxKeys (fuel + 1) token acc
      = some (Except.error (CosError.keyError "Contents")) := by
  simp [bucketContentsAux, hsvc, hc]

theorem bucket_contents_contents_keyerror_witness :
    bucketContentsAux svcNoContents "demo" 100 1 "" ["x"]
      = some (Except.error (CosError.keyError "Contents")) :=
  bucket_contents_contents_keyerror svcNoContents "demo" 100 0 "" ["x"]
    ⟨none, some false, none⟩ rfl rfl

/-- C9: `bucket_list` returns the ordered sequence of bucket descriptors
when the response carries the `Buckets` field, and the empty sequence,
rather than failing, when the field is absent. -/
theorem bucket_list_tolerant (rsp : ListBucketsResponse) :
    (∀ bs, rsp.buckets = some bs → bucket_list rsp = bs) ∧
    (rsp.buckets = none → bucket_list rsp = []) := by
  constructor
  · intro bs hbs
    simp [bucket_list, hbs]
  · intro hn
    simp [bucket_list, hn]

theorem bucket_list_tolerant_witness :
    bucket_list ⟨some [⟨"b1", "2020-01-01"⟩]⟩ = [⟨"b1", "2020-01-01"⟩] ∧
    bucket_list ⟨none⟩ = [] :=
  ⟨(bucket_list_tolerant ⟨some [⟨"b1", "2020-01-01"⟩]⟩).1 _ rfl,
   (bucket_list_tolerant ⟨none⟩).2 rfl⟩

/-- C6: for every `url_type` whose lowercase form is not one of
`public`, `private`, `direct`, `url_from_location` returns `None` having
performed zero HTTP requests — the membership test precedes any I/O. -/
theorem url_from_location_unrecognized
    (httpGetJson : String → Except CosError Json)
    (endpoints location urlType : String)
    (h : pyLower urlType ∉ (["public", "private", "direct"] : List String)) :
    url_from_location httpGetJson endpoints location urlType
      = (Except.ok none, 0) := by
  simp [url_from_location, h]

theorem url_from_location_unrecognized_witness :
    url_from_location (fun _ => Except.ok Json.other) "ep" "us" "bogus"
      = (Except.ok none, 0) :=
  url_from_location_unrecognized (fun _ => Except.ok Json.other)
    "ep" "us" "bogus" (by decide)

/-- C5 counterexample: constructing a `COSReader` is not free of I/O — the
`tempfile.mkdtemp()` call inside `__init__` creates the temp directory on
the local filesystem, so the filesystem state after construction differs
from the state before. -/
theorem cosreader_init_io_cex :
    ((COSReader.init ⟨[], [], [], 0, 0⟩ "b" "k").2).dirs
      ≠ (⟨[], [], [], 0, 0⟩ : LocalFS).dirs := by
  decide

/-- C5 (amended): construction computes the local temp path as a fresh
temp directory paired with the key as filename, unique per reader
construction (two successive constructions never share a path), leaves
`open_file` unset, and performs no I/O other than creating that temp
directory: no file is created or opened and no backend call is made. -/
theorem cosreader_init_unique_path (fs : LocalFS)
    (bucket key bucket2 key2 : String)
    (hwf : ∀ d ∈ fs.dirs, d < fs.nextDir) :
    (COSReader.init fs bucket key).1.tmp = (fs.nextDir, key) ∧
    (COSReader.init fs bucket key).1.tmp.1 ∉ fs.dirs ∧
    (COSReader.init fs bucket key).1.open_file = none ∧
    ((COSReader.init fs bucket key).2).files = fs.files ∧
    ((COSReader.init fs bucket key).2).openHandles = fs.openHandles ∧
    ((COSReader.init fs bucket key).2).dirs
      = (COSReader.init fs bucket key).1.tmp.1 :: fs.dirs ∧
    (COSReader.init (COSReader.init fs bucket key).2 bucket2 key2).1.tmp
      ≠ (COSReader.init fs bucket key).1.tmp := by
  refine ⟨rfl, ?_, rfl, rfl, rfl, rfl, ?_⟩
  · intro hmem
    exact absurd (hwf _ hmem) (by simp [COSReader.init, mkdtemp])
  · simp [COSReader.init, mkdtemp]

theorem cosreader_init_unique_path_witness :
    (COSReader.init ⟨[], [], [], 0, 0⟩ "b" "k").1.tmp = (0, "k") ∧
    (COSReader.init ⟨[], [], [], 0, 0⟩ "b" "k").1.tmp.1 ∉ ([] : List Nat) ∧
    (COSReader.init ⟨[], [], [], 0, 0⟩ "b" "k").1.open_file = none ∧
    ((COSReader.init ⟨[], [], [], 0, 0⟩ "b" "k").2).files = [] ∧
    ((COSReader.init ⟨[], [], [], 0, 0⟩ "b" "k").2).openHandles = [] ∧
    ((COSReader.init ⟨[], [], [], 0, 0⟩ "b" "k").2).dirs
      = (COSReader.init ⟨[], [], [], 0, 0⟩ "b" "k").1.tmp.1 :: [] ∧
    (COSReader.init (COSReader.init ⟨[], [], [], 0, 0⟩ "b" "k").2 "b" "k").1.tmp
      ≠ (COSReader.init ⟨[], [], [], 0, 0⟩ "b" "k").1.tmp :=
  cosreader_init_unique_path ⟨[], [], [], 0, 0⟩ "b" "k" "b" "k" (by decide)

/-- C2 counterexample: when the download on scope entry fails (key not
found in an empty store), the error that propagates is the capability's
raw `ClientError` — the code defines no `TransferError` — and the temp
directory created at construction is still present afterwards: no cleanup
happens before the error propagates. -/
theorem cosreader_enter_failure_cex :
    ((COSReader.enter ⟨[]⟩ (COSReader.init ⟨[], [], [], 0, 0⟩ "b" "k").1
        (COSReader.init ⟨[], [], [], 0, 0⟩ "b" "k").2).1
      = Except.error (CosError.clientError "404 Not Found")) ∧
    ((COSReader.init ⟨[], [], [], 0, 0⟩ "b" "k").1.tmp.1
      ∈ (COSReader.enter ⟨[]⟩ (COSReader.init ⟨[], [], [], 0, 0⟩ "b" "k").1
          (COSReader.init ⟨[], [], [], 0, 0⟩ "b" "k").2).2.dirs) :=
  ⟨rfl, by decide⟩

/-- C2 (amended): if the download performed on entering the scope fails,
the scope never yields an open file handle and the failure propagates to
the caller as the backend's own `ClientError` (not wrapped in any
`TransferError`), with the local state left exactly as it was: the temp
directory is not cleaned up and no file or handle is created. -/
theorem cosreader_enter_failure (store : ObjectStore) (r : COSReader)
    (fs : LocalFS) (h : store.lookup r.bucket r.key = none) :
    COSReader.enter store r fs
      = (Except.error (CosError.clientError "404 Not Found"), fs) := by
  simp [COSReader.enter, download_file, h]

theorem cosreader_enter_failure_witness :
    COSReader.enter ⟨[]⟩ ⟨"b", "k", none, (0, "k")⟩ ⟨[0], [], [], 1, 0⟩
      = (Except.error (CosError.clientError "404 Not Found"),
         ⟨[0], [], [], 1, 0⟩) :=
  cosreader_enter_failure ⟨[]⟩ ⟨"b", "k", none, (0, "k")⟩
    ⟨[0], [], [], 1, 0⟩ rfl

/-- C3 counterexample: when closing the open file handle fails, the
`os.remove` statement never runs — `__exit__` propagates the close failure
at once and the temp file is still present afterwards, refuting "removal
is attempted regardless of the close outcome". -/
theorem cosreader_exit_close_failure_cex :
    (COSReader.exitWith (failingClose "close failed")
        ⟨"b", "k", some 0, (0, "k")⟩
        ⟨[0], [(0, "k")], [(0, (0, "k"))], 1, 1⟩).1
      = Except.error (CosError.osError "close failed") ∧
    (0, "k") ∈ (COSReader.exitWith (failingClose "close failed")
        ⟨"b", "k", some 0, (0, "k")⟩
        ⟨[0], [(0, "k")], [(0, (0, "k"))], 1, 1⟩).2.files :=
  ⟨rfl, by decide⟩

/-- C3 (amended): `__exit__` runs `close` then `os.remove` in sequence
with no `finally`: if `close` fails, its failure propagates immediately
and removal is never attempted; only when `close` succeeds is the temp
file removed (after which it is absent). -/
theorem cosreader_exit_sequencing
    (closeOp : LocalFS → Nat → Except CosError Unit × LocalFS)
    (r : COSReader) (fs fs1 : LocalFS) (h : Nat) (e : CosError)
    (hopen : r.open_file = some h) :
    (closeOp fs h = (Except.error e, fs1) →
        COSReader.exitWith closeOp r fs = (Except.error e, fs1)) ∧
    (closeOp fs h = (Except.ok (), fs1) →
        COSReader.exitWith closeOp r fs = removeFile fs1 r.tmp ∧
        r.tmp ∉ (removeFile fs1 r.tmp).2.files) := by
  constructor
  · intro hclose
    simp [COSReader.exitWith, hopen, hclose]
  · intro hclose
    refine ⟨by simp [COSReader.exitWith, hopen, hclose], ?_⟩
    by_cases hmem : r.tmp ∈ fs1.files
    · simp only [removeFile, if_pos hmem]
      intro hin
      rcases List.mem_filter.mp hin with ⟨-, hne⟩
      simp at hne
    · simp only [removeFile, if_neg hmem]
      exact hmem

theorem cosreader_exit_sequencing_witness :
    ((failingClose "boom" ⟨[0], [(0, "k")], [(0, (0, "k"))], 1, 1⟩ 0
        = (Except.error (CosError.osError "boom"),
           ⟨[0], [(0, "k")], [(0, (0, "k"))], 1, 1⟩)) →
      COSReader.exitWith (failingClose "boom")
          ⟨"b", "k", some 0, (0, "k")⟩
          ⟨[0], [(0, "k")], [(0, (0, "k"))], 1, 1⟩
        = (Except.error (CosError.osError "boom"),
           ⟨[0], [(0, "k")], [(0, (0, "k"))], 1, 1⟩)) ∧
    ((failingClose "boom" ⟨[0], [(0, "k")], [(0, (0, "k"))], 1, 1⟩ 0
        = (Except.ok (),
           ⟨[0], [(0, "k")], [(0, (0, "k"))], 1, 1⟩)) →
      COSReader.exitWith (failingClose "boom")
          ⟨"b", "k", some 0, (0, "k")⟩
          ⟨[0], [(0, "k")], [(0, (0, "k"))], 1, 1⟩
        = removeFile ⟨[0], [(0, "k")], [(0, (0, "k"))], 1, 1⟩ (0, "k") ∧
      ((0, "k") : TmpPath)
        ∉ (removeFile ⟨[0], [(0, "k")], [(0, (0, "k"))], 1, 1⟩
            (0, "k")).2.files) :=
  cosreader_exit_sequencing (failingClose "boom")
    ⟨"b", "k", some 0, (0, "k")⟩
    ⟨[0], [(0, "k")], [(0, (0, "k"))], 1, 1⟩
    ⟨[0], [(0, "k")], [(0, (0, "k"))], 1, 1⟩ 0
    (CosError.osError "boom") rfl

/-- C4: for every scope that was successfully entered (the object exists,
so the download succeeds), both exit paths — a body that returns normally
and a body that raises — leave the temp file absent from the local
filesystem and the file handle opened by the scope closed. -/
theorem withReader_cleanup (store : ObjectStore) (r : COSReader)
    (fs : LocalFS) (body : Nat → Except CosError Unit) (data : String)
    (hdl : store.lookup r.bucket r.key = some data) :
    r.tmp ∉ (withReader store r fs body).2.files ∧
    ∀ p, (fs.nextHandle, p) ∉ (withReader store r fs body).2.openHandles := by
  have hmem : r.tmp ∈ r.tmp :: fs.files := List.mem_cons_self _ _
  constructor
  · simp only [withReader, COSReader.enter, download_file, hdl,
      COSReader.exit, COSReader.exitWith, openLocal, closeFile, removeFile,
      if_pos hmem]
    intro hin
    rcases List.mem_filter.mp hin with ⟨-, hne⟩
    simp at hne
  · intro p
    simp only [withReader, COSReader.enter, download_file, hdl,
      COSReader.exit, COSReader.exitWith, openLocal, closeFile, removeFile,
      if_pos hmem]
    intro hin
    rcases List.mem_filter.mp hin with ⟨-, hne⟩
    simp at hne

theorem withReader_cleanup_witness :
    ((0, "k") : TmpPath)
      ∉ (withReader ⟨[(("b", "k"), "data")]⟩ ⟨"b", "k", none, (0, "k")⟩
          ⟨[0], [], [], 1, 0⟩ (fun _ => Except.ok ())).2.files ∧
    ∀ p, ((0 : Nat), p)
      ∉ (withReader ⟨[(("b", "k"), "data")]⟩ ⟨"b", "k", none, (0, "k")⟩
          ⟨[0], [], [], 1, 0⟩ (fun _ => Except.ok ())).2.openHandles :=
  withReader_cleanup ⟨[(("b", "k"), "data")]⟩ ⟨"b", "k", none, (0, "k")⟩
    ⟨[0], [], [], 1, 0⟩ (fun _ => Except.ok ()) "data" rfl

end Pycos
